import Mathlib

/-!
Shallow embedding of the access-control and booking core of the
Mini Hospital Management System backend (`hms_backend/hms_app`).

Records mirror the Django models in `hms_app/models.py`; the operations
mirror the view-level logic in `hms_app/views.py`.  The relational store
is a record of lists; Django ORM lookups (`objects.get`, `objects.filter`,
`.exists()`) become `List.find?`, `List.filter`, `List.any`.  Dates and
times are abstracted as naturals (only equality on them matters to the
logic under study).
-/

namespace HMS

/-- The enumeration `UserProfile.ROLE_CHOICES` from `models.py`: every profile's role is
either `doctor` or `patient`. -/
inductive Role
  | doctor
  | patient
deriving DecidableEq, Repr

/-- The `UserProfile` model: a one-to-one link from a user id to a role. -/
structure UserProfile where
  user : Nat
  role : Role
deriving DecidableEq, Repr

/-- The `Doctor` model (the fields the access-control core reads: primary key,
owning user, availability flag). -/
structure Doctor where
  id : Nat
  user : Nat
  is_available : Bool
deriving DecidableEq, Repr

/-- The `DoctorAvailability` model: a recurring weekly slot owned by a doctor. -/
structure DoctorAvailability where
  id : Nat
  doctor : Nat
  day_of_week : Nat
  start_time : Nat
  end_time : Nat
  is_active : Bool
deriving DecidableEq, Repr

/-- The enumeration `Appointment.STATUS_CHOICES` from `models.py`. -/
inductive AppStatus
  | scheduled
  | completed
  | cancelled
  | no_show
deriving DecidableEq, Repr

/-- The `Appointment` model.  `doctor` stores a `Doctor.id`, `patient` a user id;
`updated_at` is the `auto_now` timestamp refreshed on every `save()`. -/
structure Appointment where
  id : Nat
  doctor : Nat
  patient : Nat
  appointment_date : Nat
  start_time : Nat
  end_time : Nat
  reason : String
  status : AppStatus
  notes : String
  updated_at : Nat
deriving DecidableEq, Repr

/-- Modelled from the spec: the `MedicalReport` model is referenced from
`views.py` but its definition is not among the provided sources; per the
spec's data model it carries a nullable authoring doctor and an owning
patient (the content/attachment payload is irrelevant to access control). -/
structure MedicalReport where
  id : Nat
  doctor : Option Nat
  patient : Nat
deriving DecidableEq, Repr

/-- The relational store: one list per table, plus the set of user ids
known to the identity store (`auth.User`). -/
structure Store where
  users : List Nat
  profiles : List UserProfile
  doctors : List Doctor
  availability : List DoctorAvailability
  appointments : List Appointment
  reports : List MedicalReport
deriving DecidableEq, Repr

/-- The `UserProfile.objects.get(user=u)` — `user` is a one-to-one key, so the
first match is the match. -/
def getProfile (s : Store) (u : Nat) : Option UserProfile :=
  s.profiles.find? (fun p => p.user == u)

/-- The `Doctor.objects.get(user=u)` (one-to-one). -/
def getDoctorByUser (s : Store) (u : Nat) : Option Doctor :=
  s.doctors.find? (fun d => d.user == u)

/-- The `Doctor.objects.get(id=i)` (primary-key lookup). -/
def getDoctorById (s : Store) (i : Nat) : Option Doctor :=
  s.doctors.find? (fun d => d.id == i)

/-- The `DoctorViewSet.get_queryset` (`views.py`): doctors see only their own
record, patients see all available doctors, a missing profile yields the
empty queryset. -/
def doctor_list (s : Store) (actor : Nat) : List Doctor :=
  match getProfile s actor with
  | none => []
  | some profile =>
    if profile.role = Role.doctor then
      s.doctors.filter (fun d => d.user == actor)
    else
      s.doctors.filter (fun d => d.is_available)

/-- Outcome of an availability mutation (`DoctorAvailabilityViewSet`):
either the saved slot, or the `NotFound` DRF exception. -/
inductive AvailResult
  | ok (slot : DoctorAvailability)
  | notFoundErr
deriving DecidableEq, Repr

/-- The `DoctorAvailabilityViewSet.perform_create`: `serializer.save(doctor=doctor)`
overrides any client-supplied doctor with the Doctor record resolved from
the requesting user; a missing Doctor record raises `NotFound`. -/
def availability_perform_create (s : Store) (actor : Nat) (input : DoctorAvailability) :
    AvailResult × Store :=
  match getDoctorByUser s actor with
  | none => (AvailResult.notFoundErr, s)
  | some doctor =>
    let slot := { input with doctor := doctor.id }
    (AvailResult.ok slot, { s with availability := s.availability ++ [slot] })

/-- The `DoctorAvailabilityViewSet.perform_update`: same server-side doctor
derivation, updating the row with the given primary key. -/
def availability_perform_update (s : Store) (actor slotId : Nat) (input : DoctorAvailability) :
    AvailResult × Store :=
  match getDoctorByUser s actor with
  | none => (AvailResult.notFoundErr, s)
  | some doctor =>
    let slot := { input with id := slotId, doctor := doctor.id }
    (AvailResult.ok slot,
     { s with availability := s.availability.map (fun b => if b.id == slotId then slot else b) })

/-- The `AppointmentViewSet.get_queryset`: doctor-role actors see the
appointments of their Doctor record, other actors see the appointments
they booked; a missing UserProfile or Doctor row yields the empty
queryset (`Appointment.objects.none()`). -/
def appointment_queryset (s : Store) (actor : Nat) : List Appointment :=
  match getProfile s actor with
  | none => []
  | some profile =>
    if profile.role = Role.doctor then
      match getDoctorByUser s actor with
      | none => []
      | some doctor => s.appointments.filter (fun a => a.doctor == doctor.id)
    else
      s.appointments.filter (fun a => a.patient == actor)

/-- The body of a `book_appointment` request.  The view reads `doctor_id`,
`appointment_date`, `start_time`, `end_time` and `reason` from
`request.data`; a client-supplied `patient` key may be present but is
never read. -/
structure BookRequest where
  doctor_id : Nat
  appointment_date : Nat
  start_time : Nat
  end_time : Nat
  reason : String
  patient : Option Nat
deriving DecidableEq, Repr

/-- Outcome of `book_appointment`: 201 with the new row, 404
`Doctor not found`, 400 `Time slot already booked`, or an unhandled
database `IntegrityError` (HTTP 500). -/
inductive BookResult
  | created (a : Appointment)
  | doctorNotFound
  | slotAlreadyBooked
  | integrityError
deriving DecidableEq, Repr

/-- The `Appointment.objects.create(...)`: the insert enforces
`unique_together = ['doctor', 'appointment_date', 'start_time']` from
`Appointment.Meta` (`models.py`) — the constraint carries no status
component — and a duplicate key raises `IntegrityError`, modelled as
`Except.error`. -/
def appointment_create (s : Store) (a : Appointment) : Except Unit Store :=
  if s.appointments.any (fun b =>
      b.doctor == a.doctor && b.appointment_date == a.appointment_date &&
      b.start_time == a.start_time) then
    Except.error ()
  else
    Except.ok { s with appointments := s.appointments ++ [a] }

/-- The `AppointmentViewSet.book_appointment`: resolve the doctor, run the
scheduled-slot conflict pre-check, then insert a `scheduled` appointment
whose patient is the requesting actor.  `newId` is the fresh primary key
the database would assign and `now` the `auto_now` timestamp. -/
def book_appointment (s : Store) (actor : Nat) (r : BookRequest) (newId now : Nat) :
    BookResult × Store :=
  match getDoctorById s r.doctor_id with
  | none => (BookResult.doctorNotFound, s)
  | some doctor =>
    if s.appointments.any (fun a =>
        a.doctor == doctor.id && a.appointment_date == r.appointment_date &&
        a.start_time == r.start_time && decide (a.status = AppStatus.scheduled)) then
      (BookResult.slotAlreadyBooked, s)
    else
      let a : Appointment :=
        { id := newId, doctor := doctor.id, patient := actor,
          appointment_date := r.appointment_date, start_time := r.start_time,
          end_time := r.end_time, reason := r.reason, status := AppStatus.scheduled,
          notes := "", updated_at := now }
      match appointment_create s a with
      | Except.error _ => (BookResult.integrityError, s)
      | Except.ok s2 => (BookResult.created a, s2)

/-- Outcome of `cancel_appointment`: 200 with the cancelled row, 404 from
`get_object` (the appointment is outside the actor's queryset), or 403
`Unauthorized`. -/
inductive CancelResult
  | ok (a : Appointment)
  | notFoundErr
  | forbidden
deriving DecidableEq, Repr

/-- The `AppointmentViewSet.cancel_appointment`: `self.get_object()` resolves
the primary key inside the actor's scoped queryset (404 when absent);
then only the booking patient may cancel; `appointment.save()` writes the
new status and refreshes the `auto_now` field `updated_at`. -/
def cancel_appointment (s : Store) (actor pk now : Nat) : CancelResult × Store :=
  match (appointment_queryset s actor).find? (fun a => a.id == pk) with
  | none => (CancelResult.notFoundErr, s)
  | some a =>
    if a.patient ≠ actor then
      (CancelResult.forbidden, s)
    else
      let a2 := { a with status := AppStatus.cancelled, updated_at := now }
      (CancelResult.ok a2,
       { s with appointments := s.appointments.map (fun b => if b.id == a.id then a2 else b) })

/-- The `MedicalReportViewSet.get_queryset`: a doctor-role actor sees the
reports of every patient appearing in one of their appointments (any
status); other actors see their own reports; a missing profile or Doctor
row yields the empty queryset. -/
def medicalreport_queryset (s : Store) (actor : Nat) : List MedicalReport :=
  match getProfile s actor with
  | none => []
  | some profile =>
    if profile.role = Role.doctor then
      match getDoctorByUser s actor with
      | none => []
      | some doctor =>
        s.reports.filter (fun r =>
          s.appointments.any (fun a => a.doctor == doctor.id && a.patient == r.patient))
    else
      s.reports.filter (fun r => r.patient == actor)

/-- Outcome of the medical-report `list` action. -/
inductive ReportListResult
  | ok (reports : List MedicalReport)
  | patientNotFound
  | forbidden
  | doctorProfileNotFound
deriving DecidableEq, Repr

/-- The `MedicalReportViewSet.list`: without a `patient_id` query parameter the
scoped queryset is returned; with one, the target user must exist (404),
the actor must have a profile (403), a doctor-role actor needs a Doctor
record (404) and an appointment with the target patient (403), and a
patient-role actor may only name themselves (403). -/
def medicalreport_list (s : Store) (actor : Nat) (patient_id : Option Nat) :
    ReportListResult :=
  let qs := medicalreport_queryset s actor
  match patient_id with
  | none => ReportListResult.ok qs
  | some pid =>
    if s.users.contains pid then
      match getProfile s actor with
      | none => ReportListResult.forbidden
      | some profile =>
        if profile.role = Role.doctor then
          match getDoctorByUser s actor with
          | none => ReportListResult.doctorProfileNotFound
          | some doctor =>
            if s.appointments.any (fun a => a.doctor == doctor.id && a.patient == pid) then
              ReportListResult.ok (qs.filter (fun r => r.patient == pid))
            else
              ReportListResult.forbidden
        else
          if actor ≠ pid then ReportListResult.forbidden
          else ReportListResult.ok (qs.filter (fun r => r.patient == pid))
    else
      ReportListResult.patientNotFound

/-- The `MedicalReportViewSet.perform_create`: any authenticated actor may
create a report; when the actor owns a Doctor record it is attached as the
report's doctor, otherwise the report is saved without one.  The patient
is whatever the request names (modelled from the spec: the serializer is
not among the provided sources, and the spec has reports created "for a
patient" named by the request). -/
def medicalreport_perform_create (s : Store) (actor clientPatient newId : Nat) :
    MedicalReport × Store :=
  match getDoctorByUser s actor with
  | some doctor =>
    let r : MedicalReport := { id := newId, doctor := some doctor.id, patient := clientPatient }
    (r, { s with reports := s.reports ++ [r] })
  | none =>
    let r : MedicalReport := { id := newId, doctor := none, patient := clientPatient }
    (r, { s with reports := s.reports ++ [r] })

/-! ### Concrete stores used by witnesses and counterexamples -/

def c4Doctor : Doctor := { id := 5, user := 2, is_available := true }

def c4Store : Store :=
  { users := [1, 2]
    profiles := [{ user := 1, role := Role.patient }, { user := 2, role := Role.doctor }]
    doctors := [c4Doctor]
    availability := []
    appointments := []
    reports := [] }

def c1Appt : Appointment :=
  { id := 10, doctor := 5, patient := 1, appointment_date := 100, start_time := 9,
    end_time := 10, reason := "", status := AppStatus.scheduled, notes := "", updated_at := 0 }

def c1Store : Store :=
  { users := [1, 2, 3]
    profiles := [{ user := 1, role := Role.patient }, { user := 2, role := Role.doctor },
                 { user := 3, role := Role.patient }]
    doctors := [{ id := 5, user := 2, is_available := true }]
    availability := []
    appointments := [c1Appt]
    reports := [] }

def c1Request : BookRequest :=
  { doctor_id := 5, appointment_date := 100, start_time := 9, end_time := 10,
    reason := "", patient := none }

def c2Store : Store :=
  { users := [1, 2, 3]
    profiles := [{ user := 1, role := Role.patient }, { user := 2, role := Role.doctor },
                 { user := 3, role := Role.patient }]
    doctors := [{ id := 5, user := 2, is_available := true }]
    availability := []
    appointments := [{ c1Appt with status := AppStatus.cancelled }]
    reports := [] }

def c6Slot : DoctorAvailability :=
  { id := 0, doctor := 99, day_of_week := 1, start_time := 9, end_time := 10, is_active := true }

def c9Appt : Appointment :=
  { id := 11, doctor := 5, patient := 2, appointment_date := 200, start_time := 14,
    end_time := 15, reason := "", status := AppStatus.scheduled, notes := "", updated_at := 1 }

def c9Request : BookRequest :=
  { doctor_id := 5, appointment_date := 200, start_time := 14, end_time := 15,
    reason := "", patient := some 7 }

def c3Store : Store :=
  { users := [2]
    profiles := [{ user := 2, role := Role.doctor }]
    doctors := [{ id := 5, user := 2, is_available := true }]
    availability := []
    appointments := []
    reports := [] }

def c3Report : MedicalReport := { id := 1, doctor := none, patient := 1 }

def c3bStore : Store :=
  { users := [1, 2]
    profiles := [{ user := 1, role := Role.patient }, { user := 2, role := Role.doctor }]
    doctors := [{ id := 5, user := 2, is_available := true }]
    availability := []
    appointments := []
    reports := [c3Report] }

end HMS

namespace HMS

/-- C4: for every authenticated actor requesting the doctor list: a
doctor-role actor gets exactly the Doctor records they own; a patient-role
actor gets exactly the Doctor records with `is_available = true`; an actor
with no profile gets the empty list (no error). -/
theorem C4_doctor_listing (s : Store) (actor : Nat) (d : Doctor) :
    (∀ p, getProfile s actor = some p → p.role = Role.doctor →
      (d ∈ doctor_list s actor ↔ d ∈ s.doctors ∧ d.user = actor)) ∧
    (∀ p, getProfile s actor = some p → p.role = Role.patient →
      (d ∈ doctor_list s actor ↔ d ∈ s.doctors ∧ d.is_available = true)) ∧
    (getProfile s actor = none → doctor_list s actor = []) := by
  refine ⟨?_, ?_, ?_⟩
  · intro p hp hrole
    simp [doctor_list, hp, hrole, List.mem_filter]
  · intro p hp hrole
    have hnd : p.role ≠ Role.doctor := by
      rw [hrole]; intro h; cases h
    simp [doctor_list, hp, hnd, List.mem_filter]
  · intro hnone
    simp [doctor_list, hnone]

/-- Witness for C4 at a concrete store: patient 1 sees the available
doctor record. -/
theorem C4_doctor_listing_witness :
    c4Doctor ∈ doctor_list c4Store 1 :=
  ((C4_doctor_listing c4Store 1 c4Doctor).2.1
    { user := 1, role := Role.patient } (by decide) rfl).mpr (by decide)

/-- C7: for every authenticated actor requesting the appointment list: a
doctor-role actor with a Doctor record gets exactly the appointments of
that record; a patient-role actor gets exactly the appointments they
booked; a missing profile, or a doctor-role profile without a Doctor
record, gives the empty list with no error. -/
theorem C7_appointment_visibility (s : Store) (actor : Nat) (a : Appointment) :
    (∀ p doc, getProfile s actor = some p → p.role = Role.doctor →
      getDoctorByUser s actor = some doc →
      (a ∈ appointment_queryset s actor ↔ a ∈ s.appointments ∧ a.doctor = doc.id)) ∧
    (∀ p, getProfile s actor = some p → p.role = Role.patient →
      (a ∈ appointment_queryset s actor ↔ a ∈ s.appointments ∧ a.patient = actor)) ∧
    (getProfile s actor = none → appointment_queryset s actor = []) ∧
    (∀ p, getProfile s actor = some p → p.role = Role.doctor →
      getDoctorByUser s actor = none → appointment_queryset s actor = []) := by
  refine ⟨?_, ?_, ?_, ?_⟩
  · intro p doc hp hrole hdoc
    simp [appointment_queryset, hp, hrole, hdoc, List.mem_filter]
  · intro p hp hrole
    have hnd : p.role ≠ Role.doctor := by
      rw [hrole]; intro h; cases h
    simp [appointment_queryset, hp, hnd, List.mem_filter]
  · intro hnone
    simp [appointment_queryset, hnone]
  · intro p hp hrole hdoc
    simp [appointment_queryset, hp, hrole, hdoc]

/-- Witness for C7 at a concrete store: patient 1 sees their booked
appointment. -/
theorem C7_appointment_visibility_witness :
    c1Appt ∈ appointment_queryset c1Store 1 :=
  ((C7_appointment_visibility c1Store 1 c1Appt).2.1
    { user := 1, role := Role.patient } (by decide) rfl).mpr (by decide)

/-- C1: whenever a `scheduled` appointment already occupies
(doctor, appointment_date, start_time), a booking request for the same
triple answers `Time slot already booked` and leaves the store untouched. -/
theorem C1_double_booking (s : Store) (actor newId now : Nat) (r : BookRequest)
    (doc : Doctor) (a : Appointment)
    (hdoc : getDoctorById s r.doctor_id = some doc)
    (ha : a ∈ s.appointments) (had : a.doctor = doc.id)
    (hdate : a.appointment_date = r.appointment_date)
    (htime : a.start_time = r.start_time)
    (hstat : a.status = AppStatus.scheduled) :
    book_appointment s actor r newId now = (BookResult.slotAlreadyBooked, s) := by
  have hany : s.appointments.any (fun b =>
      b.doctor == doc.id && b.appointment_date == r.appointment_date &&
      b.start_time == r.start_time && decide (b.status = AppStatus.scheduled)) = true := by
    rw [List.any_eq_true]
    exact ⟨a, ha, by simp [had, hdate, htime, hstat]⟩
  simp [book_appointment, hdoc, hany]

/-- Witness for C1: patient 3's attempt to re-book the slot held by
patient 1 is rejected and the store is unchanged. -/
theorem C1_double_booking_witness :
    book_appointment c1Store 3 c1Request 11 1 = (BookResult.slotAlreadyBooked, c1Store) :=
  C1_double_booking c1Store 3 11 1 c1Request
    { id := 5, user := 2, is_available := true } c1Appt
    (by decide) (by decide) rfl rfl rfl rfl

/-- C2 (code evaluation at the failing input): when the only appointment
for (doctor 5, date 100, time 9) is `cancelled`, a fresh booking for the
same slot passes the view's scheduled-only pre-check but trips the
status-blind `unique_together` constraint: the result is an unhandled
`IntegrityError`, not a created `scheduled` appointment. -/
theorem C2_rebook_cancelled_integrity_error :
    book_appointment c2Store 3 c1Request 11 1 = (BookResult.integrityError, c2Store) ∧
    (book_appointment c2Store 3 c1Request 11 1).1 ≠
      BookResult.created { c1Appt with id := 11, patient := 3, updated_at := 1 } := by
  constructor
  · decide
  · decide

/-- C6: availability create/update derive the owning doctor server-side
from the requesting actor — a client-supplied doctor value is discarded —
and an actor without a Doctor record is rejected with `NotFound`, never
answered silently. -/
theorem C6_availability_owner (s : Store) (actor slotId clientDoc : Nat)
    (input : DoctorAvailability) :
    (getDoctorByUser s actor = none →
      availability_perform_create s actor input = (AvailResult.notFoundErr, s) ∧
      availability_perform_update s actor slotId input = (AvailResult.notFoundErr, s)) ∧
    (∀ doc, getDoctorByUser s actor = some doc →
      availability_perform_create s actor { input with doctor := clientDoc } =
        availability_perform_create s actor input ∧
      availability_perform_update s actor slotId { input with doctor := clientDoc } =
        availability_perform_update s actor slotId input ∧
      (availability_perform_create s actor input).1 =
        AvailResult.ok { input with doctor := doc.id } ∧
      (availability_perform_update s actor slotId input).1 =
        AvailResult.ok { input with id := slotId, doctor := doc.id }) := by
  constructor
  · intro h
    exact ⟨by simp [availability_perform_create, h],
           by simp [availability_perform_update, h]⟩
  · intro doc h
    refine ⟨?_, ?_, ?_, ?_⟩ <;>
      simp [availability_perform_create, availability_perform_update, h]

/-- Witness for C6: doctor-user 2 creates a slot whose client-side doctor
field 99 is replaced by their own Doctor id. -/
theorem C6_availability_owner_witness :
    (availability_perform_create c4Store 2 c6Slot).1 =
      AvailResult.ok { c6Slot with doctor := c4Doctor.id } :=
  (((C6_availability_owner c4Store 2 0 99 c6Slot).2 c4Doctor (by decide)).2.2).1

/-- C9: the booking endpoint never consults the actor's role — the whole
outcome is insensitive to the profile table and to any client-supplied
patient value — and every created appointment has the requesting actor as
its patient and status `scheduled`. -/
theorem C9_book_role_blind (s : Store) (actor newId now : Nat) (r : BookRequest)
    (ps : List UserProfile) (cp : Option Nat) :
    book_appointment { s with profiles := ps } actor r newId now =
      ((book_appointment s actor r newId now).1,
       { (book_appointment s actor r newId now).2 with profiles := ps }) ∧
    book_appointment s actor { r with patient := cp } newId now =
      book_appointment s actor r newId now ∧
    (∀ a, (book_appointment s actor r newId now).1 = BookResult.created a →
      a.patient = actor ∧ a.status = AppStatus.scheduled) := by
  refine ⟨?_, rfl, ?_⟩
  · unfold book_appointment appointment_create getDoctorById
    cases hd : s.doctors.find? (fun d => d.id == r.doctor_id) with
    | none => simp [hd]
    | some doc =>
      simp only [hd]
      by_cases h1 : (s.appointments.any fun a =>
          a.doctor == doc.id && a.appointment_date == r.appointment_date &&
          a.start_time == r.start_time && decide (a.status = AppStatus.scheduled)) = true
      · simp [h1]
      · by_cases h2 : (s.appointments.any fun b =>
            b.doctor == doc.id && b.appointment_date == r.appointment_date &&
            b.start_time == r.start_time) = true
        · simp [h1, h2]
        · simp [h1, h2]
  · intro a h
    unfold book_appointment at h
    split at h
    · simp at h
    · rename_i doc hd
      split at h
      · simp at h
      · unfold appointment_create at h
        dsimp only at h
        by_cases h2 : (s.appointments.any fun b =>
            b.doctor == doc.id && b.appointment_date == r.appointment_date &&
            b.start_time == r.start_time) = true
        · rw [if_pos h2] at h
          dsimp only at h
          simp at h
        · rw [if_neg h2] at h
          dsimp only at h
          cases h
          exact ⟨rfl, rfl⟩

/-- Witness for C9: the doctor-role user 2 (not a patient) books an
appointment successfully, and the created row's patient is user 2
themselves, not the client-supplied patient 7. -/
theorem C9_book_role_blind_witness :
    (book_appointment c1Store 2 c9Request 11 1).1 = BookResult.created c9Appt ∧
    c9Appt.patient = 2 ∧ c9Appt.status = AppStatus.scheduled :=
  ⟨by decide, (C9_book_role_blind c1Store 2 11 1 c9Request [] none).2.2 c9Appt (by decide)⟩

/-- C10: medical-report creation succeeds for every authenticated actor:
the report's patient is whatever the request names, the doctor field is
the actor's Doctor record when one exists and empty otherwise, the report
is appended to the store, and the outcome ignores the profile table (no
role check). -/
theorem C10_report_create_unrestricted (s : Store) (actor clientPatient newId : Nat)
    (ps : List UserProfile) :
    (medicalreport_perform_create s actor clientPatient newId).1.patient = clientPatient ∧
    (medicalreport_perform_create s actor clientPatient newId).1.doctor =
      (getDoctorByUser s actor).map Doctor.id ∧
    (medicalreport_perform_create s actor clientPatient newId).2.reports =
      s.reports ++ [(medicalreport_perform_create s actor clientPatient newId).1] ∧
    (medicalreport_perform_create { s with profiles := ps } actor clientPatient newId).1 =
      (medicalreport_perform_create s actor clientPatient newId).1 := by
  unfold medicalreport_perform_create getDoctorByUser
  cases hd : s.doctors.find? (fun d => d.user == actor) with
  | none => simp [hd]
  | some doc => simp [hd]

/-- The lookup `find?` returns the unique element satisfying the predicate. -/
theorem find?_eq_some_of_mem_of_unique {α : Type} {l : List α} {p : α → Bool} {a : α}
    (ha : a ∈ l) (hpa : p a = true) (huniq : ∀ b, b ∈ l → p b = true → b = a) :
    l.find? p = some a := by
  induction l with
  | nil => cases ha
  | cons x xs ih =>
    by_cases hx : p x = true
    · rw [List.find?_cons_of_pos _ hx]
      rw [huniq x (List.mem_cons_self x xs) hx]
    · rw [List.find?_cons_of_neg _ (by simpa using hx)]
      have hax : a ∈ xs := by
        cases List.mem_cons.mp ha with
        | inl h => exact absurd (h ▸ hpa) hx
        | inr h => exact h
      exact ih hax (fun b hb hpb => huniq b (List.mem_cons_of_mem x hb) hpb)

/-- Every appointment visible to an actor is an appointment of the store. -/
theorem appointment_queryset_subset (s : Store) (actor : Nat) {a : Appointment}
    (ha : a ∈ appointment_queryset s actor) : a ∈ s.appointments := by
  unfold appointment_queryset at ha
  cases hp : getProfile s actor with
  | none => rw [hp] at ha; cases ha
  | some p =>
    rw [hp] at ha
    dsimp only at ha
    by_cases hr : p.role = Role.doctor
    · rw [if_pos hr] at ha
      cases hd : getDoctorByUser s actor with
      | none => rw [hd] at ha; cases ha
      | some doc =>
        rw [hd] at ha
        dsimp only at ha
        exact (List.mem_filter.mp ha).1
    · rw [if_neg hr] at ha
      exact (List.mem_filter.mp ha).1

/-- Under the database's primary-key uniqueness, equal ids mean equal
appointment rows. -/
theorem appointment_id_inj (s : Store)
    (hid : (s.appointments.map (fun b => b.id)).Nodup)
    {a b : Appointment} (ha : a ∈ s.appointments) (hb : b ∈ s.appointments)
    (h : a.id = b.id) : a = b :=
  List.inj_on_of_nodup_map hid ha hb h

/-- The `get_object` lookup inside a scoped queryset: the primary-key lookup returns
the visible row with that id. -/
theorem appointment_queryset_find (s : Store) (actor pk : Nat) (a : Appointment)
    (hid : (s.appointments.map (fun b => b.id)).Nodup)
    (hmem : a ∈ appointment_queryset s actor) (haid : a.id = pk) :
    (appointment_queryset s actor).find? (fun b => b.id == pk) = some a := by
  apply find?_eq_some_of_mem_of_unique hmem (by simp [haid])
  intro b hb hpb
  have hb2 : b ∈ s.appointments := appointment_queryset_subset s actor hb
  have ha2 : a ∈ s.appointments := appointment_queryset_subset s actor hmem
  have hbid : b.id = a.id := by
    have h2 : b.id = pk := by simpa using hpb
    omega
  exact appointment_id_inj s hid hb2 ha2 hbid

/-- C5 (amended): a cancel request is denied whenever the actor is not the
booking patient — with `NotFound` when the appointment lies outside the
actor's visible queryset, `Forbidden` when it is visible — and the store
is unchanged on denial; when the booking patient reaches their visible
appointment the cancel is permitted. -/
theorem C5_cancel_access (s : Store) (U pk now : Nat)
    (hid : (s.appointments.map (fun b => b.id)).Nodup) :
    ((∀ a, a ∈ appointment_queryset s U → a.id ≠ pk) →
      cancel_appointment s U pk now = (CancelResult.notFoundErr, s)) ∧
    (∀ a, a ∈ appointment_queryset s U → a.id = pk → a.patient ≠ U →
      cancel_appointment s U pk now = (CancelResult.forbidden, s)) ∧
    (∀ a, a ∈ appointment_queryset s U → a.id = pk → a.patient = U →
      (cancel_appointment s U pk now).1 =
        CancelResult.ok { a with status := AppStatus.cancelled, updated_at := now }) := by
  refine ⟨?_, ?_, ?_⟩
  · intro h
    have hfind : (appointment_queryset s U).find? (fun b => b.id == pk) = none := by
      rw [List.find?_eq_none]
      intro b hb
      simpa using h b hb
    simp [cancel_appointment, hfind]
  · intro a hmem haid hpat
    have hfind := appointment_queryset_find s U pk a hid hmem haid
    simp [cancel_appointment, hfind, hpat]
  · intro a hmem haid hpat
    have hfind := appointment_queryset_find s U pk a hid hmem haid
    simp [cancel_appointment, hfind, hpat]

/-- Witness for the amended C5: actor 3 (not the booking patient) asks to
cancel appointment 10 and receives `NotFound` with the store unchanged. -/
theorem C5_cancel_access_witness :
    cancel_appointment c1Store 3 10 0 = (CancelResult.notFoundErr, c1Store) :=
  (C5_cancel_access c1Store 3 10 0 (by decide)).1 (by decide)

/-- C5 counterexample: for the non-owning patient 3, the cancel of
appointment 10 answers `NotFound` (`get_object` scopes by the actor's
queryset), not the `Forbidden` the claim requires. -/
theorem C5_cancel_counterexample :
    (3 : Nat) ≠ c1Appt.patient ∧
    (cancel_appointment c1Store 3 10 0).1 = CancelResult.notFoundErr ∧
    (cancel_appointment c1Store 3 10 0).1 ≠ CancelResult.forbidden := by
  exact ⟨by decide, by decide, by decide⟩

/-- A patient-role actor's appointment queryset is the patient filter. -/
theorem appointment_queryset_patient (s : Store) (U : Nat) (p : UserProfile)
    (hp : getProfile s U = some p) (hrole : p.role = Role.patient) :
    appointment_queryset s U = s.appointments.filter (fun a => a.patient == U) := by
  unfold appointment_queryset
  rw [hp]
  dsimp only
  rw [if_neg (by rw [hrole]; intro h; cases h)]

/-- The full behaviour of a cancel by the booking patient on a visible
appointment: success, and a by-primary-key rewrite of the ledger. -/
theorem cancel_appointment_owner (s : Store) (U pk now : Nat) (a : Appointment)
    (hid : (s.appointments.map (fun b => b.id)).Nodup)
    (hmem : a ∈ appointment_queryset s U) (haid : a.id = pk) (hpat : a.patient = U) :
    cancel_appointment s U pk now =
      (CancelResult.ok { a with status := AppStatus.cancelled, updated_at := now },
       { s with appointments := s.appointments.map (fun b =>
           if b.id == pk then
             { a with status := AppStatus.cancelled, updated_at := now }
           else b) }) := by
  subst haid
  have hfind := appointment_queryset_find s U a.id a hid hmem rfl
  unfold cancel_appointment
  rw [hfind]
  dsimp only
  rw [if_neg (by simp [hpat])]

/-- Rewriting one row by primary key does not disturb the id column. -/
theorem map_update_preserves_ids (l : List Appointment) (pk : Nat) (a1 : Appointment)
    (h : a1.id = pk) :
    (l.map (fun b => if b.id == pk then a1 else b)).map (fun b => b.id) =
      l.map (fun b => b.id) := by
  rw [List.map_map]
  apply List.map_congr_left
  intro c _
  by_cases hc : c.id = pk
  · simp [Function.comp, hc, h]
  · simp [Function.comp, hc]

/-- Two successive by-primary-key rewrites collapse to the second one. -/
theorem map_update_twice (l : List Appointment) (pk : Nat) (a1 a2 : Appointment)
    (h1 : a1.id = pk) :
    ((l.map (fun b => if b.id == pk then a1 else b)).map (fun b =>
        if b.id == pk then a2 else b)) =
      l.map (fun b => if b.id == pk then a2 else b) := by
  rw [List.map_map]
  apply List.map_congr_left
  intro c _
  by_cases hc : c.id = pk
  · simp [Function.comp, hc, h1]
  · simp [Function.comp, hc]

/-- C8 (amended): a cancel by the booking patient (reaching the
appointment through their queryset) sets the status to `cancelled` and,
because `save()` refreshes the `auto_now` column, changes exactly the
`status` and `updated_at` fields and no others; re-cancelling succeeds
and is idempotent on every field except `updated_at`. -/
theorem C8_cancel_idempotent (s : Store) (U pk now now2 : Nat) (a : Appointment)
    (p : UserProfile)
    (hid : (s.appointments.map (fun b => b.id)).Nodup)
    (hp : getProfile s U = some p) (hrole : p.role = Role.patient)
    (ha : a ∈ s.appointments) (haid : a.id = pk) (hpat : a.patient = U) :
    cancel_appointment s U pk now =
      (CancelResult.ok { a with status := AppStatus.cancelled, updated_at := now },
       { s with appointments := s.appointments.map (fun b =>
           if b.id == pk then
             { a with status := AppStatus.cancelled, updated_at := now }
           else b) }) ∧
    cancel_appointment (cancel_appointment s U pk now).2 U pk now2 =
      (CancelResult.ok { a with status := AppStatus.cancelled, updated_at := now2 },
       { s with appointments := s.appointments.map (fun b =>
           if b.id == pk then
             { a with status := AppStatus.cancelled, updated_at := now2 }
           else b) }) := by
  subst haid
  have hmem : a ∈ appointment_queryset s U := by
    rw [appointment_queryset_patient s U p hp hrole]
    exact List.mem_filter.mpr ⟨ha, by simp [hpat]⟩
  have e1 := cancel_appointment_owner s U a.id now a hid hmem rfl hpat
  refine ⟨e1, ?_⟩
  rw [e1]
  dsimp only
  have hid1 : ((({ s with appointments := s.appointments.map (fun b =>
      if b.id == a.id then
        { a with status := AppStatus.cancelled, updated_at := now }
      else b) } : Store)).appointments.map (fun b => b.id)).Nodup := by
    dsimp only
    rw [map_update_preserves_ids s.appointments a.id
      { a with status := AppStatus.cancelled, updated_at := now } rfl]
    exact hid
  have hp1 : getProfile { s with appointments := s.appointments.map (fun b =>
      if b.id == a.id then
        { a with status := AppStatus.cancelled, updated_at := now }
      else b) } U = some p := hp
  have hmem1 : ({ a with status := AppStatus.cancelled, updated_at := now } : Appointment) ∈
      appointment_queryset { s with appointments := s.appointments.map (fun b =>
        if b.id == a.id then
          { a with status := AppStatus.cancelled, updated_at := now }
        else b) } U := by
    rw [appointment_queryset_patient _ U p hp1 hrole]
    refine List.mem_filter.mpr ⟨?_, by simp [hpat]⟩
    dsimp only
    exact List.mem_map.mpr ⟨a, ha, by simp⟩
  have e2 := cancel_appointment_owner _ U a.id now2 _ hid1 hmem1 rfl hpat
  rw [e2]
  apply congrArg₂ Prod.mk rfl
  congr 1
  rw [List.map_map]
  apply List.map_congr_left
  intro c _
  by_cases hc : c.id = a.id
  · simp [Function.comp, hc]
  · simp [Function.comp, hc]

/-- Witness for the amended C8: patient 1 cancels appointment 10 at time 7
and re-cancels at time 8; the re-cancel succeeds and returns the same
cancelled row up to `updated_at`. -/
theorem C8_cancel_idempotent_witness :
    (cancel_appointment (cancel_appointment c1Store 1 10 7).2 1 10 8).1 =
      CancelResult.ok { c1Appt with status := AppStatus.cancelled, updated_at := 8 } := by
  have h := C8_cancel_idempotent c1Store 1 10 7 8 c1Appt
    { user := 1, role := Role.patient } (by decide) (by decide) rfl (by decide) rfl rfl
  rw [h.2]

/-- C8 counterexample: patient 1's cancel of appointment 10 succeeds, but
the resulting ledger is not the claimed "only the status changed" ledger —
`save()` also refreshed `updated_at` (from 0 to 9). -/
theorem C8_cancel_counterexample :
    (cancel_appointment c1Store 1 10 9).1 =
      CancelResult.ok { c1Appt with status := AppStatus.cancelled, updated_at := 9 } ∧
    (cancel_appointment c1Store 1 10 9).2.appointments ≠
      c1Store.appointments.map (fun b =>
        if b.id == 10 then { b with status := AppStatus.cancelled } else b) := by
  exact ⟨by decide, by decide⟩

/-- C3 (amended): the role-scoped report querysets are as claimed — a
doctor-role actor with a Doctor record sees exactly the reports of
patients sharing at least one appointment (any status) with them, a
patient-role actor exactly their own — but the `patient_id` filter is
decided purely by role: a patient-role requester must name themselves, a
doctor-role requester is judged only by the appointment check (even when
naming their own user id), and a doctor-role requester without a Doctor
record gets `NotFound`, not `Forbidden`. -/
theorem C3_report_access (s : Store) (actor pid : Nat) (r : MedicalReport) :
    (∀ p doc, getProfile s actor = some p → p.role = Role.doctor →
      getDoctorByUser s actor = some doc →
      (r ∈ medicalreport_queryset s actor ↔
        r ∈ s.reports ∧ ∃ a, a ∈ s.appointments ∧ a.doctor = doc.id ∧ a.patient = r.patient)) ∧
    (∀ p, getProfile s actor = some p → p.role = Role.patient →
      (r ∈ medicalreport_queryset s actor ↔ r ∈ s.reports ∧ r.patient = actor)) ∧
    (s.users.contains pid = true → ∀ p, getProfile s actor = some p →
      (p.role = Role.patient → actor ≠ pid →
        medicalreport_list s actor (some pid) = ReportListResult.forbidden) ∧
      (p.role = Role.patient → actor = pid →
        medicalreport_list s actor (some pid) =
          ReportListResult.ok
            ((medicalreport_queryset s actor).filter (fun x => x.patient == pid))) ∧
      (p.role = Role.doctor → getDoctorByUser s actor = none →
        medicalreport_list s actor (some pid) = ReportListResult.doctorProfileNotFound) ∧
      (∀ doc, p.role = Role.doctor → getDoctorByUser s actor = some doc →
        ((¬ ∃ a, a ∈ s.appointments ∧ a.doctor = doc.id ∧ a.patient = pid) →
          medicalreport_list s actor (some pid) = ReportListResult.forbidden) ∧
        ((∃ a, a ∈ s.appointments ∧ a.doctor = doc.id ∧ a.patient = pid) →
          medicalreport_list s actor (some pid) =
            ReportListResult.ok
              ((medicalreport_queryset s actor).filter (fun x => x.patient == pid))))) := by
  refine ⟨?_, ?_, ?_⟩
  · intro p doc hp hrole hdoc
    simp [medicalreport_queryset, hp, hrole, hdoc, List.mem_filter, List.any_eq_true]
  · intro p hp hrole
    have hnd : p.role ≠ Role.doctor := by
      rw [hrole]; intro h; cases h
    simp [medicalreport_queryset, hp, hnd, List.mem_filter]
  · intro hc p hp
    have hm : pid ∈ s.users := by simpa using hc
    refine ⟨?_, ?_, ?_, ?_⟩
    · intro hrole hne
      have hnd : p.role ≠ Role.doctor := by
        rw [hrole]; intro h; cases h
      simp [medicalreport_list, hm, hp, hnd, hne]
    · intro hrole heq
      subst heq
      have hnd : p.role ≠ Role.doctor := by
        rw [hrole]; intro h; cases h
      simp [medicalreport_list, hm, hp, hnd]
    · intro hrole hdoc
      simp [medicalreport_list, hm, hp, hrole, hdoc]
    · intro doc hrole hdoc
      constructor
      · intro hnex
        simp only [not_exists, not_and] at hnex
        simp [medicalreport_list, hm, hp, hrole, hdoc]
        exact hnex
      · intro hex
        obtain ⟨a, hmem, h1, h2⟩ := hex
        have hex2 : ∃ x ∈ s.appointments, x.doctor = doc.id ∧ x.patient = pid :=
          ⟨a, hmem, h1, h2⟩
        simp [medicalreport_list, hm, hp, hrole, hdoc, hex2]

/-- Witness for the amended C3: patient 1 filters by their own id and gets
their report back. -/
theorem C3_report_access_witness :
    medicalreport_list c3bStore 1 (some 1) =
      ReportListResult.ok
        ((medicalreport_queryset c3bStore 1).filter (fun x => x.patient == 1)) :=
  ((((C3_report_access c3bStore 1 1 c3Report).2.2 (by decide)
    { user := 1, role := Role.patient } (by decide)).2.1) rfl rfl)

/-- C3 counterexample: doctor-role user 2 (who has a Doctor record but no
appointments) requests `patient_id = 2` — their own user id, so "the
requester is that patient" — yet the code denies with `Forbidden`, because
a doctor-role requester is judged only by the shared-appointment check. -/
theorem C3_report_counterexample :
    medicalreport_list c3Store 2 (some 2) = ReportListResult.forbidden ∧
    medicalreport_list c3Store 2 (some 2) ≠
      ReportListResult.ok
        ((medicalreport_queryset c3Store 2).filter (fun x => x.patient == 2)) := by
  exact ⟨by decide, by decide⟩

end HMS
